import Mathlib

/-!
Shallow embedding of the alpaca-trader decision and execution engine
(src/alpaca_trader): signal aggregation (signals.py), configuration
loading (config.py), order execution guards (executor.py), and the
per-symbol cycle loops (main.py run_scan, auto_trader._process_user).

Python floats are modelled as rationals; Python dict lookups that can
raise KeyError, and attribute reads that can raise AttributeError, are
modelled in an Except monad over PyError.
-/

namespace AlpacaTrader

/-- Traffic actions, signals.py Action enum. -/
inductive Action
  | buy
  | sell
  | hold
deriving DecidableEq, Repr

/-- Python-level exceptions that the embedded code can raise. -/
inductive PyError
  | keyError (key : String)
  | attributeError (attr : String)
deriving DecidableEq, Repr

/-- One row of the indicator-augmented DataFrame: the four vote columns
that evaluate_signals reads via latest.get(col).  A NaN/None cell is
none; a missing column also reads as none (pandas Series.get). -/
structure Row where
  rsi_signal : Option String := none
  sma_signal : Option String := none
  macd_signal : Option String := none
  bb_signal : Option String := none
deriving DecidableEq, Repr

/-- latest.get(col) for the four signal columns; any other key is absent. -/
def Row.get (r : Row) (col : String) : Option String :=
  if col = "rsi_signal" then r.rsi_signal
  else if col = "sma_signal" then r.sma_signal
  else if col = "macd_signal" then r.macd_signal
  else if col = "bb_signal" then r.bb_signal
  else none

/-- config.py RSIConfig. -/
structure RSIConfig where
  enabled : Bool
  period : ℤ
  overbought : ℚ
  oversold : ℚ
deriving DecidableEq, Repr

/-- config.py SMAConfig. -/
structure SMAConfig where
  enabled : Bool
  short_period : ℤ
  long_period : ℤ
deriving DecidableEq, Repr

/-- config.py MACDConfig. -/
structure MACDConfig where
  enabled : Bool
  fast_period : ℤ
  slow_period : ℤ
  signal_period : ℤ
deriving DecidableEq, Repr

/-- config.py BollingerConfig. -/
structure BollingerConfig where
  enabled : Bool
  period : ℤ
  std_dev : ℚ
deriving DecidableEq, Repr

/-- config.py SignalConfig: mode is a free string ("majority",
"unanimous", "any" are the recognized values). -/
structure SignalConfig where
  mode : String
  min_agree : ℤ
deriving DecidableEq, Repr

/-- config.py ExecutionConfig; extended_hours has dataclass default False. -/
structure ExecutionConfig where
  order_type : String
  time_in_force : String
  position_size_pct : ℚ
  max_positions : ℤ
  allow_short : Bool
  extended_hours : Bool := false
deriving DecidableEq, Repr

/-- config.py DataConfig. -/
structure DataConfig where
  timeframe : String
  lookback_days : ℤ
deriving DecidableEq, Repr

/-- config.py ScheduleConfig. -/
structure ScheduleConfig where
  enabled : Bool
  interval_minutes : ℤ
  cron : Option String
  market_hours_only : Bool
deriving DecidableEq, Repr

/-- config.py Settings. -/
structure Settings where
  rsi : RSIConfig
  sma : SMAConfig
  macd : MACDConfig
  bollinger : BollingerConfig
  signal : SignalConfig
  execution : ExecutionConfig
  data : DataConfig
  schedule : ScheduleConfig
deriving DecidableEq, Repr

/-- signals.py Signal dataclass: fields symbol, action, strength, details
only.  It defines no price attribute. -/
structure Signal where
  symbol : String
  action : Action
  strength : ℚ
  details : List (String × Option String)
deriving DecidableEq, Repr

/-- Reading signal.price, as executor.py does: the Signal dataclass has no
such field and nothing in the repository ever assigns one, so the
attribute access raises AttributeError. -/
def Signal.price (_ : Signal) : Except PyError ℚ :=
  .error (.attributeError "price")

/-- signals.py evaluate_signals lines 37-45: the enabled signal columns,
in the order the code appends them. -/
def signal_columns (settings : Settings) : List String :=
  (if settings.rsi.enabled then ["rsi_signal"] else [])
    ++ (if settings.sma.enabled then ["sma_signal"] else [])
    ++ (if settings.macd.enabled then ["macd_signal"] else [])
    ++ (if settings.bollinger.enabled then ["bb_signal"] else [])

/-- signals.py evaluate_signals: aggregate the latest row of the frame
into one buy/sell/hold Signal under the configured mode. -/
def evaluate_signals (df : List Row) (symbol : String) (settings : Settings) :
    Signal :=
  match df.getLast? with
  | none => { symbol := symbol, action := .hold, strength := 0, details := [] }
  | some latest =>
    let indicator_signals : List (String × Option String) :=
      (signal_columns settings).map (fun col => (col, latest.get col))
    if indicator_signals = [] then
      { symbol := symbol, action := .hold, strength := 0, details := [] }
    else
      let buy_count := indicator_signals.countP (fun p => p.2 == some "buy")
      let sell_count := indicator_signals.countP (fun p => p.2 == some "sell")
      let total_enabled := indicator_signals.length
      let mode := settings.signal.mode
      let action : Action :=
        if mode = "unanimous" then
          if buy_count = total_enabled then .buy
          else if sell_count = total_enabled then .sell
          else .hold
        else if mode = "majority" then
          if settings.signal.min_agree ≤ (buy_count : ℤ) ∧ sell_count < buy_count then .buy
          else if settings.signal.min_agree ≤ (sell_count : ℤ) ∧ buy_count < sell_count then .sell
          else .hold
        else if mode = "any" then
          if 0 < buy_count ∧ sell_count = 0 then .buy
          else if 0 < sell_count ∧ buy_count = 0 then .sell
          else .hold
        else .hold
      let strength : ℚ :=
        if 0 < total_enabled then ((max buy_count sell_count : ℕ) : ℚ) / (total_enabled : ℚ)
        else 0
      { symbol := symbol, action := action, strength := strength,
        details := indicator_signals }

/-- The latest-row vote of one signal column (abstains when the frame is
empty or the cell is NaN/absent). -/
def latest_vote (df : List Row) (col : String) : Option String :=
  df.getLast?.bind (fun r => r.get col)

/-- Number of enabled indicators voting buy on the latest row. -/
def buy_votes (df : List Row) (settings : Settings) : ℕ :=
  (signal_columns settings).countP (fun c => latest_vote df c == some "buy")

/-- Number of enabled indicators voting sell on the latest row. -/
def sell_votes (df : List Row) (settings : Settings) : ℕ :=
  (signal_columns settings).countP (fun c => latest_vote df c == some "sell")

/-- Number of enabled indicators (abstainers included). -/
def total_enabled_indicators (settings : Settings) : ℕ :=
  (signal_columns settings).length

/-! ## Order executor (executor.py) -/

/-- alpaca TimeInForce values the executor can map to. -/
inductive TimeInForce
  | day
  | gtc
  | ioc
deriving DecidableEq, Repr

/-- alpaca OrderSide. -/
inductive OrderSide
  | buy
  | sell
deriving DecidableEq, Repr

/-- executor.py TIME_IN_FORCE_MAP as a partial lookup; the Python dict
access raises KeyError outside its three keys. -/
def TIME_IN_FORCE_MAP (s : String) : Option TimeInForce :=
  if s = "day" then some .day
  else if s = "gtc" then some .gtc
  else if s = "ioc" then some .ioc
  else none

/-- Market orders are sized either by dollar notional or by share qty. -/
inductive Sizing
  | notional (amount : ℚ)
  | qty (shares : ℚ)
deriving DecidableEq, Repr

/-- The order request the executor hands to client.submit_order:
MarketOrderRequest or LimitOrderRequest. -/
inductive OrderRequest
  | market (symbol : String) (sizing : Sizing) (side : OrderSide)
      (time_in_force : TimeInForce)
  | limit (symbol : String) (qty : ℚ) (side : OrderSide)
      (time_in_force : TimeInForce) (limit_price : ℚ) (extended_hours : Bool)
deriving DecidableEq, Repr

/-- order_request.side, as read when building the submission result. -/
def OrderRequest.side : OrderRequest → OrderSide
  | .market _ _ s _ => s
  | .limit _ _ s _ _ _ => s

/-- The order_desc strings of executor.py, one constructor per f-string. -/
inductive OrderDesc
  | buyLimit (symbol : String) (qty limit_price : ℚ)
  | buyMarket (symbol : String) (notional : ℚ)
  | sellLimit (symbol : String) (qty limit_price : ℚ)
  | sellMarket (symbol : String) (qty : ℚ)
  | shortLimit (symbol : String) (qty limit_price : ℚ)
  | shortMarket (symbol : String) (notional : ℚ)
deriving DecidableEq, Repr

/-- What execute_signal returns when it acts: the dry-run dict
(dry_run, symbol, description) or the submitted-order dict
(order_id, symbol, side, status). -/
inductive ExecResult
  | dry_run_result (symbol : String) (description : OrderDesc)
  | submitted (order_id : String) (symbol : String) (side : OrderSide)
      (status : String)
deriving DecidableEq, Repr

/-- An open position as the executor reads it: symbol and signed qty. -/
structure Position where
  symbol : String
  qty : ℚ
deriving DecidableEq, Repr

/-- The brokerage state the executor reads through AlpacaClient, plus the
id/status its submit_order response would carry. -/
structure AlpacaClient where
  equity : ℚ
  positions : List Position
  next_order_id : String
  next_order_status : String
deriving DecidableEq, Repr

/-- client.get_position: the open position for a symbol, or none. -/
def AlpacaClient.get_position (c : AlpacaClient) (symbol : String) :
    Option Position :=
  c.positions.find? (fun p => p.symbol == symbol)

/-- Python round() at banker's (round-half-to-even) semantics on exact
rationals. -/
def py_round (x : ℚ) : ℤ :=
  let f := ⌊x⌋
  if x - f < 1 / 2 then f
  else if 1 / 2 < x - f then f + 1
  else if f % 2 = 0 then f else f + 1

/-- round(x, 2). -/
def round2 (x : ℚ) : ℚ := (py_round (x * 100) : ℚ) / 100

/-- round(x, 4). -/
def round4 (x : ℚ) : ℚ := (py_round (x * 10000) : ℚ) / 10000

/-- executor.py lines 78-149: compute order_request and order_desc for a
non-hold signal that passed the guards.  At this point signal.action is
buy or sell (hold returned earlier); the else branch of the Python
if/elif chain is the short sell (no existing position).  The extended
hours branches read signal.price, which raises. -/
def build_order (settings : Settings) (equity : ℚ)
    (existing_position : Option Position) (signal : Signal)
    (tif : TimeInForce) : Except PyError (OrderRequest × OrderDesc) :=
  let extended_hours := settings.execution.extended_hours
  if signal.action = .buy then
    let notional := round2 (equity * (settings.execution.position_size_pct / 100))
    if extended_hours then do
      let p ← signal.price
      let limit_price := round2 p
      let qty := round4 (notional / limit_price)
      pure (.limit signal.symbol qty .buy .day limit_price true,
        .buyLimit signal.symbol qty limit_price)
    else
      pure (.market signal.symbol (.notional notional) .buy tif,
        .buyMarket signal.symbol notional)
  else
    match existing_position with
    | some pos =>
      let qty := |pos.qty|
      if extended_hours then do
        let p ← signal.price
        let limit_price := round2 p
        pure (.limit signal.symbol qty .sell .day limit_price true,
          .sellLimit signal.symbol qty limit_price)
      else
        pure (.market signal.symbol (.qty qty) .sell tif,
          .sellMarket signal.symbol qty)
    | none =>
      let notional := round2 (equity * (settings.execution.position_size_pct / 100))
      if extended_hours then do
        let p ← signal.price
        let limit_price := round2 p
        let qty := round4 (notional / limit_price)
        pure (.limit signal.symbol qty .sell .day limit_price true,
          .shortLimit signal.symbol qty limit_price)
      else
        pure (.market signal.symbol (.notional notional) .sell tif,
          .shortMarket signal.symbol notional)

instance {ε α : Type} [DecidableEq ε] [DecidableEq α] :
    DecidableEq (Except ε α) := fun a b =>
  match a, b with
  | .error e, .error f => decidable_of_iff (e = f) (by simp)
  | .error _, .ok _ => .isFalse (fun h => by cases h)
  | .ok _, .error _ => .isFalse (fun h => by cases h)
  | .ok u, .ok v => decidable_of_iff (u = v) (by simp)

/-- Result of one execute_signal call: the returned value (or raised
exception) together with the orders actually handed to
client.submit_order. -/
structure ExecOutput where
  result : Except PyError (Option ExecResult)
  submitted_orders : List OrderRequest
deriving DecidableEq, Repr

/-- executor.py lines 151-173: dry run returns the description without
submitting; otherwise the single submit_order call is made. -/
def submit_phase (client : AlpacaClient) (signal : Signal) (dry_run : Bool)
    (built : OrderRequest × OrderDesc) : ExecOutput :=
  if dry_run then
    { result := .ok (some (.dry_run_result signal.symbol built.2)),
      submitted_orders := [] }
  else
    { result := .ok (some (.submitted client.next_order_id signal.symbol
        built.1.side client.next_order_status)),
      submitted_orders := [built.1] }

/-- executor.py OrderExecutor.execute_signal: guards, order parameter
computation, dry run, submission. -/
def execute_signal (client : AlpacaClient) (settings : Settings)
    (signal : Signal) (dry_run : Bool) : ExecOutput :=
  if signal.action = .hold then { result := .ok none, submitted_orders := [] }
  else
    let equity := client.equity
    let positions := client.positions
    let existing_position := client.get_position signal.symbol
    -- Guard: max positions
    if signal.action = .buy ∧ existing_position = none
        ∧ settings.execution.max_positions ≤ (positions.length : ℤ) then
      { result := .ok none, submitted_orders := [] }
    -- Guard: already holding
    else if signal.action = .buy ∧ existing_position ≠ none then
      { result := .ok none, submitted_orders := [] }
    -- Guard: nothing to sell
    else if signal.action = .sell ∧ existing_position = none
        ∧ settings.execution.allow_short = false then
      { result := .ok none, submitted_orders := [] }
    else
      match TIME_IN_FORCE_MAP settings.execution.time_in_force with
      | none =>
        { result := .error (.keyError settings.execution.time_in_force),
          submitted_orders := [] }
      | some tif =>
        -- extended-hours guard: reads signal.price (which raises, the
        -- Signal dataclass having no price field); were a falsy price
        -- readable, the branch would reject with no order
        if settings.execution.extended_hours then
          match signal.price with
          | .error e => { result := .error e, submitted_orders := [] }
          | .ok price =>
            if price = 0 then { result := .ok none, submitted_orders := [] }
            else
              match build_order settings equity existing_position signal tif with
              | .error e => { result := .error e, submitted_orders := [] }
              | .ok built => submit_phase client signal dry_run built
        else
          match build_order settings equity existing_position signal tif with
          | .error e => { result := .error e, submitted_orders := [] }
          | .ok built => submit_phase client signal dry_run built

/-! ## Cycle loops

main.py run_scan iterates the fetched frames with no per-symbol
try/except: an exception thrown while handling one symbol propagates out
of the loop.  auto_trader._process_user wraps each symbol in try/except,
logging the exception and continuing.  Indicator computation
(compute_all) is an external collaborator; the loops are modelled over
frames already augmented with the vote columns. -/

/-- main.py run_scan lines 88-112 (with execute=True): evaluate each
symbol, execute non-hold signals, collect truthy results.  No try/except:
a raised exception aborts the remaining symbols. -/
def run_scan (client : AlpacaClient) (settings : Settings)
    (bars : List (String × List Row)) (dry_run : Bool) :
    Except PyError (List ExecResult) :=
  match bars with
  | [] => .ok []
  | (symbol, df) :: rest =>
    let signal := evaluate_signals df symbol settings
    match
      (if signal.action ≠ Action.hold then
        (execute_signal client settings signal dry_run).result
      else .ok none) with
    | .error e => .error e
    | .ok r =>
      match run_scan client settings rest dry_run with
      | .error e => .error e
      | .ok results => .ok (r.toList ++ results)

/-- auto_trader._process_user lines 155-209: the per-symbol loop, with
each symbol inside try/except.  Returns (signals_processed,
trades_executed); a caught exception is only logged, recorded nowhere. -/
def process_user_symbols (client : AlpacaClient) (settings : Settings)
    (bars : List (String × List Row)) : ℕ × ℕ :=
  match bars with
  | [] => (0, 0)
  | (symbol, df) :: rest =>
    let signal := evaluate_signals df symbol settings
    -- signals_processed += 1 happens before execute_signal, so a raise
    -- during execution still counts the symbol as processed
    let step : ℕ × ℕ :=
      match
        (if signal.action = Action.buy ∨ signal.action = Action.sell then
          (execute_signal client settings signal false).result
        else .ok none) with
      | .error _ => (1, 0)
      | .ok (some _) => (1, 1)
      | .ok none => (1, 0)
    let restCounts := process_user_symbols client settings rest
    (step.1 + restCounts.1, step.2 + restCounts.2)

/-! ## Configuration loading (config.py load_settings) -/

/-- The signal section of the YAML as load_settings reads it. -/
structure RawSignalSection where
  mode : String
  min_agree : ℤ
deriving DecidableEq, Repr

/-- The execution section of the YAML as load_settings reads it; note
load_settings reads no extended_hours key. -/
structure RawExecutionSection where
  order_type : String
  time_in_force : String
  position_size_pct : ℚ
  max_positions : ℤ
  allow_short : Bool
deriving DecidableEq, Repr

/-- A parsed settings YAML carrying exactly the keys load_settings
accesses (a missing key would raise KeyError; key presence is encoded by
the structure, value validation is not). -/
structure RawConfig where
  rsi : RSIConfig
  sma : SMAConfig
  macd : MACDConfig
  bollinger : BollingerConfig
  signal : RawSignalSection
  execution : RawExecutionSection
  data : DataConfig
  schedule : ScheduleConfig
deriving DecidableEq, Repr

/-- config.py load_settings lines 82-144 on a parse with all keys
present: every value is copied through unvalidated; ExecutionConfig is
built without extended_hours, which therefore keeps its dataclass
default False. -/
def load_settings (raw : RawConfig) : Settings :=
  { rsi := raw.rsi
    sma := raw.sma
    macd := raw.macd
    bollinger := raw.bollinger
    signal := { mode := raw.signal.mode, min_agree := raw.signal.min_agree }
    execution :=
      { order_type := raw.execution.order_type
        time_in_force := raw.execution.time_in_force
        position_size_pct := raw.execution.position_size_pct
        max_positions := raw.execution.max_positions
        allow_short := raw.execution.allow_short }
    data := raw.data
    schedule := raw.schedule }

/-! ## Concrete fixtures

Concrete settings, clients, frames and signals used by the closed
theorems below (mirroring the shapes of tests/conftest.py and
tests/test_executor.py). -/

/-- The default configuration of tests/conftest.py: all four indicators
enabled, majority mode with min_agree 2, market day orders sized at 5%,
max 10 positions, shorting disabled, regular hours. -/
def settingsBase : Settings where
  rsi := { enabled := true, period := 14, overbought := 70, oversold := 30 }
  sma := { enabled := true, short_period := 20, long_period := 50 }
  macd := { enabled := true, fast_period := 12, slow_period := 26, signal_period := 9 }
  bollinger := { enabled := true, period := 20, std_dev := 2 }
  signal := { mode := "majority", min_agree := 2 }
  execution := { order_type := "market", time_in_force := "day", position_size_pct := 5, max_positions := 10, allow_short := false }
  data := { timeframe := "1Day", lookback_days := 100 }
  schedule := { enabled := false, interval_minutes := 60, cron := none, market_hours_only := true }

/-- settingsBase with extended_hours enabled. -/
def settingsExt : Settings :=
  { settingsBase with execution := { settingsBase.execution with extended_hours := true } }

/-- settingsBase with shorting allowed. -/
def settingsShort : Settings :=
  { settingsBase with execution := { settingsBase.execution with allow_short := true } }

/-- settingsBase with shorting allowed and extended_hours enabled. -/
def settingsShortExt : Settings :=
  { settingsBase with execution := { settingsBase.execution with allow_short := true, extended_hours := true } }

/-- settingsBase with an unrecognized time-in-force string. -/
def settingsBadTif : Settings :=
  { settingsBase with execution := { settingsBase.execution with time_in_force := "fok" } }

/-- settingsBase with an unrecognized time-in-force and extended hours. -/
def settingsBadTifExt : Settings :=
  { settingsBase with execution := { settingsBase.execution with time_in_force := "fok", extended_hours := true } }

/-- A parsed YAML identical to settingsBase except that the aggregation
mode is the unrecognized string "sideways". -/
def rawBogus : RawConfig where
  rsi := { enabled := true, period := 14, overbought := 70, oversold := 30 }
  sma := { enabled := true, short_period := 20, long_period := 50 }
  macd := { enabled := true, fast_period := 12, slow_period := 26, signal_period := 9 }
  bollinger := { enabled := true, period := 20, std_dev := 2 }
  signal := { mode := "sideways", min_agree := 2 }
  execution := { order_type := "market", time_in_force := "day", position_size_pct := 5, max_positions := 10, allow_short := false }
  data := { timeframe := "1Day", lookback_days := 100 }
  schedule := { enabled := false, interval_minutes := 60, cron := none, market_hours_only := true }

/-- A latest row on which rsi, sma and macd vote buy and bollinger
abstains. -/
def row3buy : Row :=
  { rsi_signal := some "buy", sma_signal := some "buy", macd_signal := some "buy" }

/-- A one-row frame whose latest row carries three buy votes. -/
def dfBuy : List Row := [row3buy]

/-- A brokerage with equity 100000, no positions, and a fixed response
for submitted orders. -/
def clientBase : AlpacaClient where
  equity := 100000
  positions := []
  next_order_id := "test-order-123"
  next_order_status := "accepted"

/-- clientBase holding 15 shares of AAPL. -/
def clientPos15 : AlpacaClient :=
  { clientBase with positions := [{ symbol := "AAPL", qty := 15 }] }

/-- clientBase holding 5 shares of B (and nothing in A). -/
def clientHoldsB : AlpacaClient :=
  { clientBase with positions := [{ symbol := "B", qty := 5 }] }

/-- A buy signal for AAPL. -/
def sigBuy : Signal := { symbol := "AAPL", action := .buy, strength := 3/4, details := [] }

/-- A sell signal for AAPL. -/
def sigSell : Signal := { symbol := "AAPL", action := .sell, strength := 1/2, details := [] }

/-! ## Theorems about the claims -/

/-- Claim C1: for every bar history and settings, the strength of the
Signal returned by evaluate_signals equals
max(buy_count, sell_count) / total_enabled whenever the number of
enabled indicators is positive (abstaining indicators counting in the
denominator but in neither tally), and equals 0 when no indicator is
enabled. -/
theorem evaluate_signals_strength (df : List Row) (symbol : String)
    (settings : Settings) :
    (evaluate_signals df symbol settings).strength =
      if 0 < total_enabled_indicators settings then
        ((max (buy_votes df settings) (sell_votes df settings) : ℕ) : ℚ) /
          (total_enabled_indicators settings : ℚ)
      else 0 := by
  cases h : df.getLast? with
  | none =>
    have hb : buy_votes df settings = 0 := by
      refine List.countP_eq_zero.2 (fun a _ => ?_)
      simp [latest_vote, h]
    have hs : sell_votes df settings = 0 := by
      refine List.countP_eq_zero.2 (fun a _ => ?_)
      simp [latest_vote, h]
    simp [evaluate_signals, h, hb, hs]
  | some latest =>
    by_cases hc : signal_columns settings = []
    · simp [evaluate_signals, h, hc, total_enabled_indicators]
    · have hb : buy_votes df settings =
          ((signal_columns settings).map (fun col => (col, latest.get col))).countP
            (fun p => p.2 == some "buy") := by
        simp only [buy_votes, latest_vote, h, List.countP_map]
        rfl
      have hs : sell_votes df settings =
          ((signal_columns settings).map (fun col => (col, latest.get col))).countP
            (fun p => p.2 == some "sell") := by
        simp only [sell_votes, latest_vote, h, List.countP_map]
        rfl
      have hlen : total_enabled_indicators settings =
          ((signal_columns settings).map (fun col => (col, latest.get col))).length := by
        simp [total_enabled_indicators]
      have hmap : ¬ ((signal_columns settings).map (fun col => (col, latest.get col)) = []) := by
        simp [hc]
      simp only [evaluate_signals, h]
      rw [if_neg hmap]
      dsimp only
      rw [← hb, ← hs, ← hlen]

/-- Claim C2: in majority mode, evaluate_signals returns buy iff the buy
tally reaches min_agree and strictly exceeds the sell tally, sell iff
symmetrically, and hold otherwise (in particular on ties). -/
theorem evaluate_signals_majority (df : List Row) (symbol : String)
    (settings : Settings) (hm : settings.signal.mode = "majority") :
    ((evaluate_signals df symbol settings).action = .buy ↔
      settings.signal.min_agree ≤ (buy_votes df settings : ℤ) ∧
        sell_votes df settings < buy_votes df settings) ∧
    ((evaluate_signals df symbol settings).action = .sell ↔
      settings.signal.min_agree ≤ (sell_votes df settings : ℤ) ∧
        buy_votes df settings < sell_votes df settings) ∧
    ((evaluate_signals df symbol settings).action = .hold ↔
      ¬(settings.signal.min_agree ≤ (buy_votes df settings : ℤ) ∧
          sell_votes df settings < buy_votes df settings) ∧
        ¬(settings.signal.min_agree ≤ (sell_votes df settings : ℤ) ∧
          buy_votes df settings < sell_votes df settings)) := by
  cases h : df.getLast? with
  | none =>
    have hb : buy_votes df settings = 0 := by
      refine List.countP_eq_zero.2 (fun a _ => ?_)
      simp [latest_vote, h]
    have hs : sell_votes df settings = 0 := by
      refine List.countP_eq_zero.2 (fun a _ => ?_)
      simp [latest_vote, h]
    simp [evaluate_signals, h, hb, hs]
  | some latest =>
    by_cases hc : signal_columns settings = []
    · have hb : buy_votes df settings = 0 := by simp [buy_votes, hc]
      have hs : sell_votes df settings = 0 := by simp [sell_votes, hc]
      simp [evaluate_signals, h, hc, hb, hs]
    · have hb : buy_votes df settings =
          ((signal_columns settings).map (fun col => (col, latest.get col))).countP
            (fun p => p.2 == some "buy") := by
        simp only [buy_votes, latest_vote, h, List.countP_map]
        rfl
      have hs : sell_votes df settings =
          ((signal_columns settings).map (fun col => (col, latest.get col))).countP
            (fun p => p.2 == some "sell") := by
        simp only [sell_votes, latest_vote, h, List.countP_map]
        rfl
      have hmap : ¬ ((signal_columns settings).map (fun col => (col, latest.get col)) = []) := by
        simp [hc]
      simp only [evaluate_signals, h]
      rw [if_neg hmap]
      dsimp only
      rw [hm, ← hb, ← hs]
      simp only [String.reduceEq, if_false, if_true, reduceIte]
      split_ifs with h1 h2 <;> (simp_all; try omega)

/-- Witness for claim C2: under the default majority settings
(min_agree 2) a frame with three buy votes and one abstention yields a
buy action. -/
theorem evaluate_signals_majority_witness :
    (evaluate_signals dfBuy "AAPL" settingsBase).action = .buy :=
  (evaluate_signals_majority dfBuy "AAPL" settingsBase rfl).1.mpr (by decide)

/-- Claim C3 (code bug): with extended_hours enabled and no price
available (no price is ever available: the Signal dataclass has no
price attribute), a non-hold signal past the guards makes
execute_signal raise AttributeError at the price read instead of
rejecting with "no price for limit order"; no order is submitted. -/
theorem execute_signal_extended_hours_attribute_error :
    execute_signal clientBase settingsExt sigBuy false =
      { result := .error (.attributeError "price"), submitted_orders := [] } := by
  decide

/-- Counterexample for claim C4: under an invalid time-in-force, the
first symbol of a two-symbol run_scan cycle raises KeyError and the
whole cycle aborts with that error — the second symbol (whose
evaluation would have completed without submitting) is never processed.
The AutoTrader loop over the same inputs processes both symbols. -/
theorem run_scan_exception_aborts_remaining :
    run_scan clientHoldsB settingsBadTif [("A", dfBuy), ("B", dfBuy)] false =
      .error (.keyError "fok") ∧
    process_user_symbols clientHoldsB settingsBadTif [("A", dfBuy), ("B", dfBuy)] =
      (2, 0) := by
  decide

/-- Claim C4 as amended: in the AutoTrader per-user cycle every symbol
is processed — a per-symbol exception is caught (and only logged) and
never aborts the remaining symbols, so signals_processed always equals
the number of symbols. -/
theorem process_user_symbols_processes_all (client : AlpacaClient)
    (settings : Settings) (bars : List (String × List Row)) :
    (process_user_symbols client settings bars).1 = bars.length := by
  induction bars with
  | nil => rfl
  | cons hd tl ih =>
    obtain ⟨symbol, df⟩ := hd
    simp only [process_user_symbols]
    cases hres : (if (evaluate_signals df symbol settings).action = Action.buy ∨
        (evaluate_signals df symbol settings).action = Action.sell then
        (execute_signal client settings (evaluate_signals df symbol settings) false).result
      else .ok none) with
    | error e => simp [hres, ih]; omega
    | ok r => cases r <;> (simp [hres, ih]; omega)

/-- Counterexample for claim C5: a configuration whose aggregation mode
is the unrecognized string "sideways" loads successfully (no startup
failure), and the engine then evaluates signals and runs a full scan
cycle under that mode. -/
theorem load_settings_accepts_unknown_mode :
    (load_settings rawBogus).signal.mode = "sideways" ∧
    (evaluate_signals dfBuy "AAPL" (load_settings rawBogus)).action = .hold ∧
    run_scan clientBase (load_settings rawBogus) [("AAPL", dfBuy)] false = .ok [] := by
  decide

/-- Claim C5 as amended: load_settings performs no validation of the
aggregation mode, but evaluate_signals under a mode outside unanimous,
majority and any always returns hold, so the engine runs without ever
trading under an unrecognized mode. -/
theorem evaluate_signals_unknown_mode_hold (df : List Row) (symbol : String)
    (settings : Settings)
    (h1 : settings.signal.mode ≠ "unanimous")
    (h2 : settings.signal.mode ≠ "majority")
    (h3 : settings.signal.mode ≠ "any") :
    (evaluate_signals df symbol settings).action = .hold := by
  cases h : df.getLast? with
  | none => simp [evaluate_signals, h]
  | some latest =>
    by_cases hc : ((signal_columns settings).map (fun col => (col, latest.get col))) = []
    · simp [evaluate_signals, h, hc]
    · simp only [evaluate_signals, h]
      rw [if_neg hc]
      simp [h1, h2, h3]

/-- Witness for amended claim C5: under the loaded "sideways"
configuration a three-buy-vote frame evaluates to hold. -/
theorem evaluate_signals_unknown_mode_hold_witness :
    (evaluate_signals dfBuy "AAPL" (load_settings rawBogus)).action = .hold :=
  evaluate_signals_unknown_mode_hold dfBuy "AAPL" (load_settings rawBogus)
    (by decide) (by decide) (by decide)

/-- Counterexample for claim C6: a sell signal on a held position with
extended_hours enabled yields AttributeError (the missing signal.price)
rather than a permitted full-liquidation order. -/
theorem execute_signal_sell_extended_hours_error :
    execute_signal clientPos15 settingsExt sigSell false =
      { result := .error (.attributeError "price"), submitted_orders := [] } := by
  decide

/-- Claim C6 as amended: when the executor reaches order construction
(recognized time-in-force and extended_hours disabled), a sell signal on
a held position is permitted regardless of allow_short and submits a
market sell of exactly the absolute held quantity (full liquidation). -/
theorem execute_signal_sell_full_liquidation (client : AlpacaClient)
    (settings : Settings) (signal : Signal) (pos : Position) (tif : TimeInForce)
    (hact : signal.action = .sell)
    (hpos : client.get_position signal.symbol = some pos)
    (htif : TIME_IN_FORCE_MAP settings.execution.time_in_force = some tif)
    (hext : settings.execution.extended_hours = false) :
    execute_signal client settings signal false =
      { result := .ok (some (.submitted client.next_order_id signal.symbol
          .sell client.next_order_status)),
        submitted_orders := [.market signal.symbol (.qty |pos.qty|) .sell tif] } := by
  simp [execute_signal, build_order, submit_phase, OrderRequest.side,
    pure, Except.pure, hact, hpos, htif, hext]

/-- Witness for amended claim C6: a position of 15 AAPL shares is sold
in full (quantity |15| = 15) under the default regular-hours settings. -/
theorem execute_signal_sell_full_liquidation_witness :
    execute_signal clientPos15 settingsBase sigSell false =
      { result := .ok (some (.submitted clientPos15.next_order_id sigSell.symbol
          .sell clientPos15.next_order_status)),
        submitted_orders := [.market sigSell.symbol (.qty |(15 : ℚ)|) .sell .day] } :=
  execute_signal_sell_full_liquidation clientPos15 settingsBase sigSell
    { symbol := "AAPL", qty := 15 } .day rfl rfl rfl rfl

/-- Counterexample for claim C7: with allow_short true but
extended_hours enabled, a sell signal with no position raises
AttributeError (the missing signal.price) instead of producing a
sell-side order. -/
theorem execute_signal_short_extended_hours_error :
    execute_signal clientBase settingsShortExt sigSell false =
      { result := .error (.attributeError "price"), submitted_orders := [] } := by
  decide

/-- Claim C7 as amended: a sell signal with no existing position is
rejected with no order when allow_short is false; when allow_short is
true and the executor reaches order construction (recognized
time-in-force, extended_hours disabled), it submits a sell-side market
order sized by notional round(equity × position_size_pct / 100, 2). -/
theorem execute_signal_sell_no_position (client : AlpacaClient)
    (settings : Settings) (signal : Signal) (tif : TimeInForce)
    (hact : signal.action = .sell)
    (hpos : client.get_position signal.symbol = none) :
    (settings.execution.allow_short = false →
      ∀ dry_run, execute_signal client settings signal dry_run =
        { result := .ok none, submitted_orders := [] }) ∧
    (settings.execution.allow_short = true →
      TIME_IN_FORCE_MAP settings.execution.time_in_force = some tif →
      settings.execution.extended_hours = false →
      execute_signal client settings signal false =
        { result := .ok (some (.submitted client.next_order_id signal.symbol
            .sell client.next_order_status)),
          submitted_orders := [.market signal.symbol
            (.notional (round2 (client.equity *
              (settings.execution.position_size_pct / 100)))) .sell tif] }) := by
  constructor
  · intro hshort dry_run
    simp [execute_signal, hact, hpos, hshort]
  · intro hshort htif hext
    simp [execute_signal, build_order, submit_phase, OrderRequest.side,
      pure, Except.pure, hact, hpos, hshort, htif, hext]

/-- Witness for amended claim C7: with no position, shorting disabled
gives no order; shorting enabled gives a notional-sized sell order. -/
theorem execute_signal_sell_no_position_witness :
    execute_signal clientBase settingsBase sigSell true =
      { result := .ok none, submitted_orders := [] } ∧
    execute_signal clientBase settingsShort sigSell false =
      { result := .ok (some (.submitted clientBase.next_order_id sigSell.symbol
          .sell clientBase.next_order_status)),
        submitted_orders := [.market sigSell.symbol
          (.notional (round2 (clientBase.equity *
            (settingsShort.execution.position_size_pct / 100)))) .sell .day] } :=
  ⟨(execute_signal_sell_no_position clientBase settingsBase sigSell .day rfl rfl).1
      rfl true,
    (execute_signal_sell_no_position clientBase settingsShort sigSell .day rfl rfl).2
      rfl rfl rfl⟩

/-- Claim C8 (code bug): no extended-hours order can ever be produced —
even in dry-run mode the price read raises AttributeError before any
limit order is built, because the Signal dataclass carries no price. -/
theorem execute_signal_extended_hours_dry_run_error :
    execute_signal clientBase settingsExt sigBuy true =
      { result := .error (.attributeError "price"), submitted_orders := [] } := by
  decide

/-- Helper: with extended_hours disabled, order construction never
raises. -/
theorem build_order_ok (settings : Settings) (equity : ℚ)
    (existing_position : Option Position) (signal : Signal) (tif : TimeInForce)
    (hext : settings.execution.extended_hours = false) :
    ∃ rd, build_order settings equity existing_position signal tif = .ok rd := by
  unfold build_order
  by_cases hb : signal.action = .buy
  · simp [hb, hext, pure, Except.pure]
  · cases existing_position <;> simp [hb, hext, pure, Except.pure]

/-- Claim C9: for a non-hold signal that passes all guards, dry-run mode
returns the computed order intent — the description of exactly the
request that a non-dry run submits — and makes no submission call. -/
theorem execute_signal_dry_run_same_intent (client : AlpacaClient)
    (settings : Settings) (signal : Signal) (tif : TimeInForce)
    (hact : signal.action ≠ .hold)
    (hg1 : ¬(signal.action = .buy ∧ client.get_position signal.symbol = none ∧
        settings.execution.max_positions ≤ (client.positions.length : ℤ)))
    (hg2 : ¬(signal.action = .buy ∧ client.get_position signal.symbol ≠ none))
    (hg3 : ¬(signal.action = .sell ∧ client.get_position signal.symbol = none ∧
        settings.execution.allow_short = false))
    (htif : TIME_IN_FORCE_MAP settings.execution.time_in_force = some tif)
    (hext : settings.execution.extended_hours = false) :
    ∃ req desc,
      build_order settings client.equity (client.get_position signal.symbol)
          signal tif = .ok (req, desc) ∧
      execute_signal client settings signal true =
        { result := .ok (some (.dry_run_result signal.symbol desc)),
          submitted_orders := [] } ∧
      execute_signal client settings signal false =
        { result := .ok (some (.submitted client.next_order_id signal.symbol
            req.side client.next_order_status)),
          submitted_orders := [req] } := by
  obtain ⟨⟨req, desc⟩, hbo⟩ :=
    build_order_ok settings client.equity (client.get_position signal.symbol)
      signal tif hext
  refine ⟨req, desc, hbo, ?_, ?_⟩ <;>
    simp [execute_signal, submit_phase, hact, hg1, hg2, hg3, htif, hext, hbo]

/-- Witness for claim C9: a buy signal under the default settings — the
dry run returns the intent description and submits nothing, the real
run submits that same request. -/
theorem execute_signal_dry_run_same_intent_witness :
    ∃ req desc,
      build_order settingsBase clientBase.equity
          (clientBase.get_position sigBuy.symbol) sigBuy .day = .ok (req, desc) ∧
      execute_signal clientBase settingsBase sigBuy true =
        { result := .ok (some (.dry_run_result sigBuy.symbol desc)),
          submitted_orders := [] } ∧
      execute_signal clientBase settingsBase sigBuy false =
        { result := .ok (some (.submitted clientBase.next_order_id sigBuy.symbol
            req.side clientBase.next_order_status)),
          submitted_orders := [req] } :=
  execute_signal_dry_run_same_intent clientBase settingsBase sigBuy .day
    (by decide) (by decide) (by decide) (by decide) rfl rfl

/-- Claim C10: once the guards pass, the time-in-force map is read
before anything else, so an unrecognized configured time-in-force
raises KeyError — for either dry_run value and even with extended_hours
enabled, where the configured time-in-force would be unused. -/
theorem execute_signal_invalid_tif_key_error (client : AlpacaClient)
    (settings : Settings) (signal : Signal) (dry_run : Bool)
    (hact : signal.action ≠ .hold)
    (hg1 : ¬(signal.action = .buy ∧ client.get_position signal.symbol = none ∧
        settings.execution.max_positions ≤ (client.positions.length : ℤ)))
    (hg2 : ¬(signal.action = .buy ∧ client.get_position signal.symbol ≠ none))
    (hg3 : ¬(signal.action = .sell ∧ client.get_position signal.symbol = none ∧
        settings.execution.allow_short = false))
    (htif : TIME_IN_FORCE_MAP settings.execution.time_in_force = none) :
    execute_signal client settings signal dry_run =
      { result := .error (.keyError settings.execution.time_in_force),
        submitted_orders := [] } := by
  simp [execute_signal, hact, hg1, hg2, hg3, htif]

/-- Witness for claim C10: time_in_force "fok" with extended hours and
dry_run true still raises KeyError "fok". -/
theorem execute_signal_invalid_tif_key_error_witness :
    execute_signal clientBase settingsBadTifExt sigBuy true =
      { result := .error (.keyError "fok"), submitted_orders := [] } :=
  execute_signal_invalid_tif_key_error clientBase settingsBadTifExt sigBuy true
    (by decide) (by decide) (by decide) (by decide) rfl

end AlpacaTrader
